import Mathlib

/-!
Verification model of the terraform-provider-hsdp repository.

The provider's CRUD callbacks are sequential request/response glue around an
external SDK.  We embed them shallowly: every remote call is an oracle field
of an environment record, Terraform's `ResourceData` becomes an explicit
record of the fields the callbacks touch, and each callback becomes a pure
function from environment and resource data to the updated data, the
diagnostics it returns, and the ordered trace of external calls it issued.
Go maps are modelled as association lists with unique keys; Go errors as
`String`; `(value, resp, err)` SDK returns as `Except` with the response
data the code inspects.
-/

namespace HSDP

/-- Severity of a Terraform diagnostic (`diag.Diagnostic`). -/
inductive Severity where
  | error
  | warning
deriving DecidableEq, Repr

/-- A Terraform diagnostic (`diag.Diagnostic`): severity, summary, detail. -/
structure Diagnostic where
  severity : Severity
  summary : String
  detail : String
deriving DecidableEq, Repr

/-- `diag.FromErr`: wrap an error message as a single error diagnostic. -/
def fromErr (e : String) : Diagnostic :=
  { severity := Severity.error, summary := e, detail := "" }

/-- Modelled from the spec: the sentinel consistency error
`ErrInstanceIDMismatch` (declared in the repository's errors file, which is
not under src/; only its uses are).  Its exact text is irrelevant: the
callbacks return it verbatim. -/
def ErrInstanceIDMismatch : String :=
  "instance ID mismatch"

/-- Modelled from the spec: the set-difference helper `difference`
(declared in the repository's helpers file, which is not under src/; only
its call sites are).  Per spec section 4.4 it returns the elements present
in its first argument and absent from the second. -/
def difference (a b : List String) : List String :=
  a.filter (fun x => ¬ b.contains x)

/-- The additions/removals computation performed identically at the four
update call sites: `resourceIAMServiceUpdate` (scopes, default_scopes) and
`resourceContainerHostUpdate` (user_groups, security_groups):
`toAdd := difference(new, old)`, `toRemove := difference(old, new)`. -/
def updateSetPlan (old newList : List String) : List String × List String :=
  (difference newList old, difference old newList)

/-- `normalizeTags` from resource_container_host.go: rebuild the tag map,
skipping the key "billing" and every entry whose value is empty. -/
def normalizeTags : List (String × String) → List (String × String)
  | [] => []
  | (k, v) :: rest =>
    if k = "billing" ∨ v = "" then normalizeTags rest
    else (k, v) :: normalizeTags rest

/-- Insert-or-replace on an association list, modelling assignment into a
Go map (`change[k] = v`). -/
def mapPut : List (String × String) → String → String → List (String × String)
  | [], k, v => [(k, v)]
  | (k0, v0) :: rest, k, v =>
    if k0 = k then (k, v) :: rest else (k0, v0) :: mapPut rest k v

/-- Lookup in an association list, modelling `n[k]` on a Go map. -/
def mapGet (m : List (String × String)) (k : String) : Option String :=
  (m.find? (fun kv => kv.fst = k)).map (fun kv => kv.snd)

/-- `generateTagChange` from resource_container_host.go: keys dropped or
emptied in the new map are cleared; every new non-billing entry is set. -/
def generateTagChange (old new : List (String × String)) : List (String × String) :=
  let cleared := old.foldl
    (fun change kv =>
      match mapGet new kv.fst with
      | none => mapPut change kv.fst ""
      | some newVal => if newVal = "" then mapPut change kv.fst "" else change)
    []
  new.foldl
    (fun change kv =>
      if kv.fst = "billing" then change
      else mapPut change kv.fst kv.snd)
    cleared

/-! ## PKI certificate resource (resource_pki_cert.go) -/

/-- The slice of `ResourceData` the PKI certificate delete path touches. -/
structure PKIData where
  id : String
  tenantID : String
deriving DecidableEq, Repr

/-- Oracle responses for the PKI delete path: client construction,
`pki.APIEndpoint(tenantID).LogicalPath()`, and
`client.Services.RevokeCertificateBySerial(logicalPath, serial)`, whose
success payload is the revocation time (`revoke.Data.RevocationTime`). -/
structure PKIEnv where
  pkiClient : Except String Unit
  logicalPath : String → Except String String
  revokeCertificateBySerial : String → String → Except String Int

/-- `resourcePKICertDelete` from resource_pki_cert.go: revoke by serial;
clear the id only when the reported revocation time is positive. -/
def resourcePKICertDelete (env : PKIEnv) (d : PKIData) : PKIData × List Diagnostic :=
  match env.pkiClient with
  | Except.error e => (d, [fromErr e])
  | Except.ok _ =>
    match env.logicalPath d.tenantID with
    | Except.error e => (d, [fromErr ("delete PKI cert logicalPath: " ++ e)])
    | Except.ok lp =>
      match env.revokeCertificateBySerial lp d.id with
      | Except.error e => (d, [fromErr ("delete PKI cert: " ++ e)])
      | Except.ok revocationTime =>
        if revocationTime > 0 then ({ d with id := "" }, [])
        else (d, [])

/-! ## Container host resource (resource_container_host.go) -/

/-- An entry of the `file` set: `provisionFile` (source, content, destination). -/
structure ProvisionFile where
  source : String
  content : String
  destination : String
deriving DecidableEq, Repr

/-- `cartel.InstanceDetails`: the fields the provider reads. -/
structure InstanceDetails where
  instanceID : String
  nameTag : String
  privateAddress : String
  publicAddress : String
  protection : Bool
  blockDevices : List String
  securityGroups : List String
  ldapGroups : List String
  instanceType : String
  role : String
  vpc : String
  zone : String
  launchTime : String
  subnet : String
  tags : List (String × String)
deriving DecidableEq, Repr

/-- The creation response channel (`ch` of `client.Create`): the fields the
provider reads (`ch.Description`, `ch.InstanceID()`, `ch.IPAddress()`). -/
structure CreateHolder where
  description : String
  instanceID : String
  ipAddress : String
deriving DecidableEq, Repr

/-- The HTTP response metadata the provider inspects on a failed call. -/
structure Resp where
  statusCode : Nat
deriving DecidableEq, Repr

/-- Outcome of `client.Create(tagName, ...)`, a Go `(ch, resp, err)` triple:
on error, both the channel and the response may independently be nil. -/
inductive CreateCallResult where
  | ok (ch : CreateHolder)
  | err (e : String) (resp : Option Resp) (ch : Option CreateHolder)
deriving DecidableEq, Repr

/-- External calls issued by the container host callbacks, in order. -/
inductive Event where
  | createCall (name : String)
  | getAllInstances
  | destroyCall (name : String)
  | setId (id : String)
  | waitEnter (name : String)
  | setConnInfo (host : String)
  | writeFile (dest : String)
  | sshRun (cmd : String) (timeoutSeconds : Nat)
  | getDeploymentState (name : String)
  | getDetails (name : String)
  | addTags (change : List (String × String))
  | addUserGroups (groups : List String)
  | removeUserGroups (groups : List String)
  | addSecurityGroups (groups : List String)
  | removeSecurityGroups (groups : List String)
  | setProtection (protect : Bool)
deriving DecidableEq, Repr

/-- The slice of `ResourceData` the container host callbacks touch.  The
`...Old` fields and `hasChange...` flags model `d.GetChange` / `d.HasChange`,
which the plugin host computes from the previous state. -/
structure HostData where
  id : String
  name : String
  protect : Bool
  user : String
  privateKey : String
  bastionHost : String
  subnetType : String
  subnet : String
  commands : List String
  files : List ProvisionFile
  tags : List (String × String)
  securityGroups : List String
  userGroups : List String
  encryptVolumes : Bool
  volumeSize : Nat
  volumes : Int
  role : String
  instanceType : String
  instanceRole : String
  vpc : String
  zone : String
  launchTime : String
  blockDevices : List String
  privateIp : String
  publicIp : String
  tagsOld : List (String × String)
  userGroupsOld : List String
  securityGroupsOld : List String
  hasChangeTags : Bool
  hasChangeUserGroups : Bool
  hasChangeSecurityGroups : Bool
  hasChangeProtect : Bool
deriving DecidableEq, Repr

/-- Oracle responses for the Cartel SDK calls and the local effects the
container host callbacks depend on.  `waitForState` abstracts the plugin
SDK's `StateChangeConf.WaitForStateContext` polling loop (external code):
`ok` is terminal-success, `error` is terminal-failure or timeout.
`fsOpenOk`/`fsStatOk` model the `os.Open`/`Stat` syscalls issued on a
source path while the file blocks are collected, before provisioning;
`fsOpenOkAtCopy`/`fsStatOkAtCopy` model the separate, later `os.Open`/
`Stat` syscalls issued again inside `copyFiles` — these are independent
calls that can fail even when the collection-time checks succeeded (and
their failure is the sole source of the copy warning, since remote write
errors are discarded).  `sshRun` models `ssh.Run` per command. -/
structure CartelEnv where
  cartelClient : Except String Unit
  clientBastionHost : String
  create : CreateCallResult
  getAllInstances : Except String (List InstanceDetails)
  getDeploymentState : String → Except (String × Option Resp) String
  getDetails : String → Except String InstanceDetails
  destroy : Except String Unit
  waitForState : Except String Unit
  fsOpenOk : String → Bool
  fsStatOk : String → Bool
  fsOpenOkAtCopy : String → Bool
  fsStatOkAtCopy : String → Bool
  sshRun : String → Except String (String × String × Bool)
  addTagsCall : List (String × String) → Except String Unit
  addUserGroupsCall : List String → Except String Unit
  removeUserGroupsCall : List String → Except String Unit
  addSecurityGroupsCall : List String → Except String Unit
  removeSecurityGroupsCall : List String → Except String Unit
  setProtectionCall : Bool → Except String Unit

/-- Result of one CRUD callback: updated resource data, diagnostics, and
the trace of external calls. -/
structure OpResult where
  d : HostData
  diags : List Diagnostic
  events : List Event
deriving Repr

/-- `findInstanceByName`: list all instances and return the first whose
name tag matches; `nil` when the listing fails or nothing matches. -/
def findInstanceByName (env : CartelEnv) (name : String) : Option InstanceDetails :=
  match env.getAllInstances with
  | Except.error _ => none
  | Except.ok instances => instances.find? (fun i => i.nameTag = name)

/-- `collectCommands`: read the commands list; never produces diagnostics. -/
def collectCommands (d : HostData) : List String × List Diagnostic :=
  (d.commands, [])

/-- `collectFilesToCreate`: validate each file block.  Entries with neither
or both of source/content, and source entries whose open or stat fails, are
reported as error diagnostics and skipped; the rest are collected. -/
def collectFilesToCreate (env : CartelEnv) : List ProvisionFile → List ProvisionFile × List Diagnostic
  | [] => ([], [])
  | f :: rest =>
    let (files, diags) := collectFilesToCreate env rest
    if f.source = "" ∧ f.content = "" then
      (files, { severity := Severity.error, summary := "conflict in file block",
                detail := "file " ++ f.destination ++ " has neither source or content, set one" } :: diags)
    else if f.source ≠ "" ∧ f.content ≠ "" then
      (files, { severity := Severity.error, summary := "conflict in file block",
                detail := "file " ++ f.destination ++ " has conflicting source and content, choose only one" } :: diags)
    else if f.source ≠ "" ∧ ¬ env.fsOpenOk f.source then
      (files, { severity := Severity.error, summary := "issue with source",
                detail := "file " ++ f.source ++ ": open failed" } :: diags)
    else if f.source ≠ "" ∧ ¬ env.fsStatOk f.source then
      (files, { severity := Severity.error, summary := "issue with source stat",
                detail := "file " ++ f.source ++ ": stat failed" } :: diags)
    else
      (f :: files, diags)

/-- Specification-side validity of a file block, for comparison with
`collectFilesToCreate`: exactly one of source/content is set, and a chosen
source opens and stats successfully. -/
def fileBlockOk (env : CartelEnv) (f : ProvisionFile) : Bool :=
  if f.source = "" ∧ f.content = "" then false
  else if f.source ≠ "" ∧ f.content ≠ "" then false
  else if f.source ≠ "" ∧ ¬ env.fsOpenOk f.source then false
  else if f.source ≠ "" ∧ ¬ env.fsStatOk f.source then false
  else true

/-- `copyFiles`: copy each entry in order; a failing open or stat of a
source — the copy-time syscalls, issued afresh and able to fail even
though collection succeeded earlier — aborts the loop and returns that
error, while remote write errors are ignored.  Returns the write events
issued and the error, if any. -/
def copyFiles (env : CartelEnv) : List ProvisionFile → List Event × Option String
  | [] => ([], none)
  | f :: rest =>
    if f.source ≠ "" then
      if ¬ env.fsOpenOkAtCopy f.source then ([], some ("open " ++ f.source ++ " failed"))
      else if ¬ env.fsStatOkAtCopy f.source then ([], some ("stat " ++ f.source ++ " failed"))
      else
        let (evs, r) := copyFiles env rest
        (Event.writeFile f.destination :: evs, r)
    else
      let (evs, r) := copyFiles env rest
      (Event.writeFile f.destination :: evs, r)

/-- `normalizeTags` applied after a successful details fetch, projecting the
remote record onto the resource data (the tail of `resourceContainerHostRead`). -/
def projectDetails (d : HostData) (ch : InstanceDetails) : HostData :=
  { d with
    protect := ch.protection
    volumes := (ch.blockDevices.length : Int) - 1
    role := ch.role
    launchTime := ch.launchTime
    blockDevices := ch.blockDevices
    securityGroups := difference ch.securityGroups ["base"]
    userGroups := ch.ldapGroups
    instanceType := ch.instanceType
    instanceRole := ch.role
    vpc := ch.vpc
    zone := ch.zone
    privateIp := ch.privateAddress
    publicIp := ch.publicAddress
    subnet := ch.subnet
    subnetType := if ch.publicAddress ≠ "" then "public" else "private"
    tags := normalizeTags ch.tags }

/-- The main body of `resourceContainerHostRead` once the name tag is known:
fetch deployment state, taint on bad request or a non-succeeded state,
fetch details, reject an id mismatch, else project the remote fields. -/
def readWithTag (env : CartelEnv) (d : HostData) (tagName : String) (ev : List Event) : OpResult :=
  let ev := ev ++ [Event.getDeploymentState tagName]
  match env.getDeploymentState tagName with
  | Except.error (e, resp) =>
    match resp with
    | some r =>
      if r.statusCode = 400 then { d := { d with id := "" }, diags := [], events := ev }
      else { d := d, diags := [fromErr e], events := ev }
    | none => { d := d, diags := [fromErr e], events := ev }
  | Except.ok state =>
    if state ≠ "succeeded" then { d := { d with id := "" }, diags := [], events := ev }
    else
      let ev := ev ++ [Event.getDetails tagName]
      match env.getDetails tagName with
      | Except.error e => { d := d, diags := [fromErr e], events := ev }
      | Except.ok ch =>
        if ch.instanceID ≠ d.id then
          { d := d, diags := [fromErr ErrInstanceIDMismatch], events := ev }
        else
          { d := projectDetails d ch, diags := [], events := ev }

/-- `resourceContainerHostRead`: on an empty name (import) resolve the name
tag from the instance list first, then run the main read body. -/
def resourceContainerHostRead (env : CartelEnv) (d : HostData) : OpResult :=
  match env.cartelClient with
  | Except.error e => { d := d, diags := [fromErr e], events := [] }
  | Except.ok _ =>
    if d.name = "" then
      match env.getAllInstances with
      | Except.error e =>
        { d := d, diags := [fromErr ("cartel.GetAllInstances: " ++ e)],
          events := [Event.getAllInstances] }
      | Except.ok instances =>
        let d1 := { d with encryptVolumes := true, volumeSize := 0 }
        let d2 :=
          match instances.find? (fun i => i.instanceID = d.id) with
          | some i => { d1 with name := i.nameTag }
          | none => d1
        readWithTag env d2 d2.name [Event.getAllInstances]
    else
      readWithTag env d d.name []

/-- `resourceContainerHostDelete`: fetch details by name, reject an id
mismatch, destroy, and clear the id on success. -/
def resourceContainerHostDelete (env : CartelEnv) (d : HostData) : OpResult :=
  match env.cartelClient with
  | Except.error e => { d := d, diags := [fromErr e], events := [] }
  | Except.ok _ =>
    match env.getDetails d.name with
    | Except.error e => { d := d, diags := [fromErr e], events := [Event.getDetails d.name] }
    | Except.ok ch =>
      if ch.instanceID ≠ d.id then
        { d := d, diags := [fromErr ErrInstanceIDMismatch], events := [Event.getDetails d.name] }
      else
        match env.destroy with
        | Except.error e =>
          { d := d, diags := [fromErr e],
            events := [Event.getDetails d.name, Event.destroyCall d.name] }
        | Except.ok _ =>
          { d := { d with id := "" }, diags := [],
            events := [Event.getDetails d.name, Event.destroyCall d.name] }

/-- The user_groups / security_groups / protect phases of
`resourceContainerHostUpdate`, run after the tags phase. -/
def updateGroupsAndProtect (env : CartelEnv) (d : HostData) (ev : List Event) : OpResult :=
  let (ugAdd, ugRemove) := (difference d.userGroups d.userGroupsOld,
                            difference d.userGroupsOld d.userGroups)
  let (ugResult : Except String (List Event)) :=
    if d.hasChangeUserGroups then
      match (if ugAdd ≠ [] then env.addUserGroupsCall ugAdd else Except.ok ()) with
      | Except.error e => Except.error e
      | Except.ok _ =>
        let ev1 := if ugAdd ≠ [] then [Event.addUserGroups ugAdd] else []
        match (if ugRemove ≠ [] then env.removeUserGroupsCall ugRemove else Except.ok ()) with
        | Except.error e => Except.error e
        | Except.ok _ =>
          Except.ok (ev1 ++ (if ugRemove ≠ [] then [Event.removeUserGroups ugRemove] else []))
    else Except.ok []
  match ugResult with
  | Except.error e => { d := d, diags := [fromErr e], events := ev }
  | Except.ok ev1 =>
    let ev := ev ++ ev1
    let (sgAdd, sgRemove) := (difference d.securityGroups d.securityGroupsOld,
                              difference d.securityGroupsOld d.securityGroups)
    let (sgResult : Except String (List Event)) :=
      if d.hasChangeSecurityGroups then
        match (if sgAdd ≠ [] then env.addSecurityGroupsCall sgAdd else Except.ok ()) with
        | Except.error e => Except.error e
        | Except.ok _ =>
          let ev2 := if sgAdd ≠ [] then [Event.addSecurityGroups sgAdd] else []
          match (if sgRemove ≠ [] then env.removeSecurityGroupsCall sgRemove else Except.ok ()) with
          | Except.error e => Except.error e
          | Except.ok _ =>
            Except.ok (ev2 ++ (if sgRemove ≠ [] then [Event.removeSecurityGroups sgRemove] else []))
      else Except.ok []
    match sgResult with
    | Except.error e => { d := d, diags := [fromErr e], events := ev }
    | Except.ok ev2 =>
      let ev := ev ++ ev2
      if d.hasChangeProtect then
        match env.setProtectionCall d.protect with
        | Except.error e => { d := d, diags := [fromErr e], events := ev }
        | Except.ok _ =>
          { d := d, diags := [], events := ev ++ [Event.setProtection d.protect] }
      else
        { d := d, diags := [], events := ev }

/-- `resourceContainerHostUpdate`: fetch details by name, reject an id
mismatch, then reconcile tags, user groups, security groups, protection. -/
def resourceContainerHostUpdate (env : CartelEnv) (d : HostData) : OpResult :=
  match env.cartelClient with
  | Except.error e => { d := d, diags := [fromErr e], events := [] }
  | Except.ok _ =>
    match env.getDetails d.name with
    | Except.error e => { d := d, diags := [fromErr e], events := [Event.getDetails d.name] }
    | Except.ok ch =>
      if ch.instanceID ≠ d.id then
        { d := d, diags := [fromErr ErrInstanceIDMismatch], events := [Event.getDetails d.name] }
      else
        let ev0 := [Event.getDetails d.name]
        if d.hasChangeTags then
          let change := generateTagChange d.tagsOld d.tags
          match env.addTagsCall change with
          | Except.error e => { d := d, diags := [fromErr e], events := ev0 }
          | Except.ok _ => updateGroupsAndProtect env d (ev0 ++ [Event.addTags change])
        else
          updateGroupsAndProtect env d ev0

/-- The warning diagnostic emitted when `copyFiles` reports an error. -/
def copyWarn (e : String) : Diagnostic :=
  { severity := Severity.warning, summary := "failed to copy all files",
    detail := "One or more files failed to copy: " ++ e }

/-- The command loop at the end of `resourceContainerHostCreate`: run each
command in order with a five-minute (300 second) timeout; the first failure
returns a hard error with the accumulated diagnostics; once all commands
succeed, fall through to the read callback and append its diagnostics. -/
def runCommands (env : CartelEnv) (d : HostData) (diags : List Diagnostic)
    (ev : List Event) : List String → OpResult
  | [] =>
    let r := resourceContainerHostRead env d
    { d := r.d, diags := diags ++ r.diags, events := ev ++ r.events }
  | c :: rest =>
    let ev := ev ++ [Event.sshRun c 300]
    match env.sshRun c with
    | Except.error e =>
      { d := d, diags := diags ++ [fromErr ("command [" ++ c ++ "]: " ++ e)], events := ev }
    | Except.ok _ => runCommands env d diags ev rest

/-- The tail of `resourceContainerHostCreate` once an instance id and ip
address are known (directly from the creation call, or recovered by name):
record the id, wait for the deployment to succeed (destroying the host on
wait failure), publish the connection info, copy files (downgrading a copy
failure to a warning), and run the commands. -/
def continueCreate (env : CartelEnv) (d : HostData) (createFiles : List ProvisionFile)
    (commands : List String) (instanceID ipAddress : String) (ev : List Event) : OpResult :=
  let d1 := { d with id := instanceID }
  let ev := ev ++ [Event.setId instanceID, Event.waitEnter d.name]
  match env.waitForState with
  | Except.error e =>
    { d := d1,
      diags := [fromErr ("error waiting for instance " ++ instanceID ++
                         " to become ready: " ++ e)],
      events := ev ++ [Event.destroyCall d.name] }
  | Except.ok _ =>
    let ev := ev ++ [Event.setConnInfo ipAddress]
    let (copyEvents, copyErr) := copyFiles env createFiles
    let diags :=
      match copyErr with
      | some e => [copyWarn e]
      | none => []
    runCommands env d1 diags (ev ++ copyEvents) commands

/-- The recovery arm of `resourceContainerHostCreate` taken when the
creation call fails ambiguously (no channel returned, or a status of 500 or
above): look the instance up by name among all existing instances and adopt
its id and private address; when nothing matches, destroy the named host
and report the original error. -/
def recoverCreate (env : CartelEnv) (d : HostData) (createFiles : List ProvisionFile)
    (commands : List String) (e : String) (statusCode : Nat) (ev0 : List Event) : OpResult :=
  match findInstanceByName env d.name with
  | some details =>
    continueCreate env d createFiles commands details.instanceID
      details.privateAddress (ev0 ++ [Event.getAllInstances])
  | none =>
    { d := d,
      diags := [fromErr ("create error (status=" ++ toString statusCode ++ "): " ++ e)],
      events := ev0 ++ [Event.getAllInstances, Event.destroyCall d.name] }

/-- `resourceContainerHostCreate`: validate the file blocks and the
user/private-key requirements, issue the creation call, recover an
ambiguous failure by a lookup by name (destroying and reporting on an
unambiguous or unrecovered failure), then wait, provision and read. -/
def resourceContainerHostCreate (env : CartelEnv) (d : HostData) : OpResult :=
  match env.cartelClient with
  | Except.error e => { d := d, diags := [fromErr e], events := [] }
  | Except.ok _ =>
    let tagName := d.name
    let (createFiles, fileDiags) := collectFilesToCreate env d.files
    if fileDiags ≠ [] then { d := d, diags := fileDiags, events := [] }
    else
      let (commands, commandDiags) := collectCommands d
      if commandDiags ≠ [] then { d := d, diags := commandDiags, events := [] }
      else if commands.length > 0 ∧ d.user = "" then
        { d := d, diags := [fromErr "user must be set when commands is specified"],
          events := [] }
      else if commands.length > 0 ∧ d.privateKey = "" then
        { d := d, diags := [fromErr "privateKey must be set when commands is specified"],
          events := [] }
      else
        let ev0 := [Event.createCall tagName]
        match env.create with
        | CreateCallResult.ok ch =>
          continueCreate env d createFiles commands ch.instanceID ch.ipAddress ev0
        | CreateCallResult.err e none _ =>
          { d := d, diags := [fromErr ("create error (resp=nil): " ++ e)],
            events := ev0 ++ [Event.destroyCall tagName] }
        | CreateCallResult.err e (some resp) none =>
          recoverCreate env d createFiles commands e resp.statusCode ev0
        | CreateCallResult.err e (some resp) (some ch) =>
          if resp.statusCode ≥ 500 then
            recoverCreate env d createFiles commands e resp.statusCode ev0
          else
            { d := d,
              diags := [fromErr ("create error (description=[" ++ ch.description ++
                                 "], code=[" ++ toString resp.statusCode ++ "]): " ++ e)],
              events := ev0 ++ [Event.destroyCall tagName] }

/-- Specification-side description of the command loop, for comparison with
`runCommands`: the commands actually executed (in declaration order, up to
and including the first failure) and the resulting hard error, if any. -/
def commandRunSpec (env : CartelEnv) : List String → List String × Option String
  | [] => ([], none)
  | c :: rest =>
    match env.sshRun c with
    | Except.error e => ([c], some ("command [" ++ c ++ "]: " ++ e))
    | Except.ok _ =>
      let (cs, r) := commandRunSpec env rest
      (c :: cs, r)

/-! ## Concrete instances used to exercise the model -/

/-- A host record with every field at its zero value. -/
def emptyHost : HostData :=
  { id := "", name := "", protect := false, user := "", privateKey := "",
    bastionHost := "", subnetType := "", subnet := "", commands := [], files := [],
    tags := [], securityGroups := [], userGroups := [], encryptVolumes := false,
    volumeSize := 0, volumes := 0, role := "", instanceType := "", instanceRole := "",
    vpc := "", zone := "", launchTime := "", blockDevices := [], privateIp := "",
    publicIp := "", tagsOld := [], userGroupsOld := [], securityGroupsOld := [],
    hasChangeTags := false, hasChangeUserGroups := false,
    hasChangeSecurityGroups := false, hasChangeProtect := false }

/-- Instance details with every field at its zero value. -/
def emptyDetails : InstanceDetails :=
  { instanceID := "", nameTag := "", privateAddress := "", publicAddress := "",
    protection := false, blockDevices := [], securityGroups := [], ldapGroups := [],
    instanceType := "", role := "", vpc := "", zone := "", launchTime := "",
    subnet := "", tags := [] }

/-- The creation channel returned in the all-success environment. -/
def chOk : CreateHolder :=
  { description := "", instanceID := "i-1", ipAddress := "10.1.1.1" }

/-- An environment in which every remote call succeeds. -/
def okEnv : CartelEnv :=
  { cartelClient := Except.ok ()
    clientBastionHost := "bastion"
    create := CreateCallResult.ok chOk
    getAllInstances := Except.ok []
    getDeploymentState := fun _ => Except.ok "succeeded"
    getDetails := fun _ => Except.ok { emptyDetails with instanceID := "i-1", nameTag := "host-a" }
    destroy := Except.ok ()
    waitForState := Except.ok ()
    fsOpenOk := fun _ => true
    fsStatOk := fun _ => true
    fsOpenOkAtCopy := fun _ => true
    fsStatOkAtCopy := fun _ => true
    sshRun := fun _ => Except.ok ("", "", true)
    addTagsCall := fun _ => Except.ok ()
    addUserGroupsCall := fun _ => Except.ok ()
    removeUserGroupsCall := fun _ => Except.ok ()
    addSecurityGroupsCall := fun _ => Except.ok ()
    removeSecurityGroupsCall := fun _ => Except.ok ()
    setProtectionCall := fun _ => Except.ok () }

/-- A PKI environment whose revoke call succeeds reporting time zero. -/
def pkiEnvZero : PKIEnv :=
  { pkiClient := Except.ok ()
    logicalPath := fun _ => Except.ok "lp"
    revokeCertificateBySerial := fun _ _ => Except.ok 0 }

/-- Details of the remote host "host-a" carrying instance id "i-2". -/
def detailsI2 : InstanceDetails :=
  { emptyDetails with instanceID := "i-2", nameTag := "host-a" }

/-- An environment whose details lookup reports instance id "i-2". -/
def envMismatch : CartelEnv :=
  { okEnv with getDetails := fun _ => Except.ok detailsI2 }

/-- A stored host record named "host-a" with stored id "i-1". -/
def hostI1 : HostData :=
  { emptyHost with id := "i-1", name := "host-a" }

/-- A fresh host request named "host-a". -/
def hostA : HostData :=
  { emptyHost with name := "host-a" }

/-- An environment whose details lookup fails outright. -/
def envDetailsFail : CartelEnv :=
  { okEnv with getDetails := fun _ => Except.error "boom" }

/-- A host request with one invalid file block (neither source nor content)
followed by one valid inline-content block. -/
def hostBadFile : HostData :=
  { hostA with files := [{ source := "", content := "", destination := "/a" },
                         { source := "", content := "hello", destination := "/b" }] }

/-- A host request asking for a command but supplying no user. -/
def hostNoUser : HostData :=
  { hostA with commands := ["echo hi"], privateKey := "k" }

/-- Details of the live instance the recovery lookup finds. -/
def recoveredDetails : InstanceDetails :=
  { emptyDetails with
    instanceID := "i-9"
    nameTag := "host-a"
    privateAddress := "10.0.0.9" }

/-- An environment in which the creation call fails ambiguously with a 504
and the instance listing holds a live instance named "host-a". -/
def envRecover : CartelEnv :=
  { okEnv with
    create := CreateCallResult.err "gateway timeout" (some { statusCode := 504 }) none
    getAllInstances := Except.ok [recoveredDetails] }

/-- A full provisioning request: one inline file and two commands, with
credentials supplied. -/
def hostProvision : HostData :=
  { hostA with
    user := "u"
    privateKey := "k"
    commands := ["c1", "c2"]
    files := [{ source := "", content := "hello", destination := "/f" }] }

/-- A provisioning request whose first file block reads a local source path
and whose second is inline content, with two commands and credentials. -/
def hostSrcFile : HostData :=
  { hostA with
    user := "u"
    privateKey := "k"
    commands := ["c1", "c2"]
    files := [{ source := "/tmp/a", content := "", destination := "/fa" },
              { source := "", content := "hello", destination := "/fb" }] }

/-- An environment in which the collection-time open/stat checks succeed
but the copy-time open fails: the copy pass aborts with an error while the
rest of provisioning continues. -/
def envCopyFail : CartelEnv :=
  { okEnv with fsOpenOkAtCopy := fun _ => false }

end HSDP

namespace HSDP

/-! ## Theorems -/

/-- Claim C9: tag normalization drops exactly the entries keyed "billing"
and the entries with an empty value, keeping every other entry unchanged;
on the map with billing "x", env "prod" and an empty value it returns just
the env entry. -/
theorem normalizeTags_drops_billing_and_empty :
    (∀ tags : List (String × String),
      normalizeTags tags =
        tags.filter (fun kv => ¬ (kv.fst = "billing" ∨ kv.snd = ""))) ∧
    normalizeTags [("billing", "x"), ("env", "prod"), ("empty", "")] = [("env", "prod")] := by
  constructor
  · intro tags
    induction tags with
    | nil => rfl
    | cons kv rest ih =>
      by_cases h : kv.fst = "billing" ∨ kv.snd = ""
      · have h2 : ¬(¬kv.fst = "billing" ∧ ¬kv.snd = "") := by tauto
        simp [normalizeTags, List.filter_cons, h, h2, ih]
      · simp only [not_or] at h
        simp [normalizeTags, List.filter_cons, h.1, h.2, ih]
  · rfl

/-- Claim C8: at every update call site the planned additions are exactly the
elements present in the new set and absent from the old one, the planned
removals exactly those present in the old set and absent from the new one,
and on old a,b,c against new b,c,d the plan is additions d, removals a. -/
theorem updateSetPlan_is_symmetric_difference :
    (∀ old newList : List String, ∀ x : String,
      (x ∈ (updateSetPlan old newList).fst ↔ x ∈ newList ∧ x ∉ old) ∧
      (x ∈ (updateSetPlan old newList).snd ↔ x ∈ old ∧ x ∉ newList)) ∧
    updateSetPlan ["a", "b", "c"] ["b", "c", "d"] = (["d"], ["a"]) := by
  constructor
  · intro old newList x
    constructor
    · simp [updateSetPlan, difference, List.mem_filter]
    · simp [updateSetPlan, difference, List.mem_filter]
  · rfl

/-- Claim C10: when the revoke call succeeds, the PKI certificate delete
returns no diagnostics and clears the stored id exactly when the reported
revocation time is positive; at time zero the id survives the successful
delete. -/
theorem resourcePKICertDelete_gates_on_revocation_time
    (env : PKIEnv) (d : PKIData) (lp : String) (t : Int)
    (hc : env.pkiClient = Except.ok ())
    (hlp : env.logicalPath d.tenantID = Except.ok lp)
    (hr : env.revokeCertificateBySerial lp d.id = Except.ok t) :
    (resourcePKICertDelete env d).snd = [] ∧
    (resourcePKICertDelete env d).fst.id = (if t > 0 then "" else d.id) := by
  by_cases h : t > 0 <;>
    simp [resourcePKICertDelete, hc, hlp, hr, h]

/-- Witness for claim C10 at revocation time zero: the delete succeeds with
no diagnostics while the serial stays stored. -/
theorem resourcePKICertDelete_gates_on_revocation_time_witness :
    (resourcePKICertDelete pkiEnvZero { id := "serial-1", tenantID := "t-1" }).snd = [] ∧
    (resourcePKICertDelete pkiEnvZero { id := "serial-1", tenantID := "t-1" }).fst.id =
      (if (0 : Int) > 0 then "" else "serial-1") :=
  resourcePKICertDelete_gates_on_revocation_time pkiEnvZero
    { id := "serial-1", tenantID := "t-1" } "lp" 0 rfl rfl rfl

/-- Claim C1: when the details lookup by name reports an instance id other
than the stored one, update and delete fail with the consistency error and
keep the stored data unchanged (delete without destroying anything), and
read does the same whenever it performs that lookup, i.e. when the name is
known and the deployment state came back succeeded. -/
theorem containerHost_id_mismatch_is_fatal
    (env : CartelEnv) (d : HostData) (ch : InstanceDetails)
    (hc : env.cartelClient = Except.ok ())
    (hdet : env.getDetails d.name = Except.ok ch)
    (hne : ch.instanceID ≠ d.id) :
    ((resourceContainerHostUpdate env d).diags = [fromErr ErrInstanceIDMismatch] ∧
     (resourceContainerHostUpdate env d).d = d) ∧
    ((resourceContainerHostDelete env d).diags = [fromErr ErrInstanceIDMismatch] ∧
     (resourceContainerHostDelete env d).d = d ∧
     Event.destroyCall d.name ∉ (resourceContainerHostDelete env d).events) ∧
    (d.name ≠ "" → env.getDeploymentState d.name = Except.ok "succeeded" →
     (resourceContainerHostRead env d).diags = [fromErr ErrInstanceIDMismatch] ∧
     (resourceContainerHostRead env d).d = d) := by
  refine ⟨⟨?_, ?_⟩, ⟨?_, ?_, ?_⟩, ?_⟩ <;>
    try simp [resourceContainerHostUpdate, resourceContainerHostDelete, hc, hdet, hne]
  intro hname hstate
  simp [resourceContainerHostRead, readWithTag, hc, hdet, hne, hname, hstate]

/-- Witness for claim C1: stored id "i-1" against fetched id "i-2" on host
"host-a" makes read, update and delete all fail with the consistency error
while the stored id stays "i-1". -/
theorem containerHost_id_mismatch_is_fatal_witness :
    ((resourceContainerHostUpdate envMismatch hostI1).diags = [fromErr ErrInstanceIDMismatch] ∧
     (resourceContainerHostUpdate envMismatch hostI1).d = hostI1) ∧
    ((resourceContainerHostDelete envMismatch hostI1).diags = [fromErr ErrInstanceIDMismatch] ∧
     (resourceContainerHostDelete envMismatch hostI1).d = hostI1 ∧
     Event.destroyCall hostI1.name ∉ (resourceContainerHostDelete envMismatch hostI1).events) ∧
    (hostI1.name ≠ "" →
     envMismatch.getDeploymentState hostI1.name = Except.ok "succeeded" →
     (resourceContainerHostRead envMismatch hostI1).diags = [fromErr ErrInstanceIDMismatch] ∧
     (resourceContainerHostRead envMismatch hostI1).d = hostI1) :=
  containerHost_id_mismatch_is_fatal envMismatch hostI1 detailsI2 rfl rfl (by decide)

/-- Claim C5: a non-empty commands list with an empty user or an empty
private key makes creation fail with the corresponding validation error,
leaving the data untouched and issuing no external call at all; in
particular the remote creation call is never reached. -/
theorem create_requires_credentials_for_commands
    (env : CartelEnv) (d : HostData)
    (hc : env.cartelClient = Except.ok ())
    (hfiles : (collectFilesToCreate env d.files).snd = [])
    (hcmds : d.commands ≠ [])
    (hcred : d.user = "" ∨ d.privateKey = "") :
    (resourceContainerHostCreate env d).events = [] ∧
    (resourceContainerHostCreate env d).d = d ∧
    (resourceContainerHostCreate env d).diags =
      [fromErr (if d.user = "" then "user must be set when commands is specified"
                else "privateKey must be set when commands is specified")] := by
  rcases hp : collectFilesToCreate env d.files with ⟨cf, fd⟩
  have hfd : fd = [] := by rw [hp] at hfiles; exact hfiles
  subst hfd
  have hlen : d.commands.length > 0 := List.length_pos.mpr hcmds
  by_cases hu : d.user = ""
  · simp [resourceContainerHostCreate, hc, hp, collectCommands, hlen, hu]
  · have hpk : d.privateKey = "" := hcred.resolve_left hu
    simp [resourceContainerHostCreate, hc, hp, collectCommands, hlen, hu, hpk]

/-- Witness for claim C5: a request with one command and no user fails with
the user validation error and produces an empty call trace. -/
theorem create_requires_credentials_for_commands_witness :
    (resourceContainerHostCreate okEnv hostNoUser).events = [] ∧
    (resourceContainerHostCreate okEnv hostNoUser).d = hostNoUser ∧
    (resourceContainerHostCreate okEnv hostNoUser).diags =
      [fromErr (if hostNoUser.user = "" then "user must be set when commands is specified"
                else "privateKey must be set when commands is specified")] :=
  create_requires_credentials_for_commands okEnv hostNoUser rfl rfl
    (by decide) (Or.inl rfl)

/-- Counterexample to claim C7: on host "host-a" with stored id "i-1",
deployment state succeeded but an unobtainable details record, the read
returns the lookup error and keeps the stored identity, instead of clearing
the identity and returning without error as the claim states. -/
theorem read_details_error_keeps_identity :
    (resourceContainerHostRead envDetailsFail hostI1).diags = [fromErr "boom"] ∧
    (resourceContainerHostRead envDetailsFail hostI1).d.id = "i-1" := by
  exact ⟨rfl, rfl⟩

/-- Claim C7 as amended: a read by a known name clears the stored identity
and returns without error when the fetched deployment state is anything
other than succeeded, or when the state lookup reports bad request; when
the instance details are unobtainable the read instead returns the lookup
error and leaves the stored identity unchanged. -/
theorem read_taints_only_on_deployment_state
    (env : CartelEnv) (d : HostData)
    (hc : env.cartelClient = Except.ok ())
    (hname : d.name ≠ "") :
    (∀ s, env.getDeploymentState d.name = Except.ok s → s ≠ "succeeded" →
      (resourceContainerHostRead env d).d.id = "" ∧
      (resourceContainerHostRead env d).diags = []) ∧
    (∀ e r, env.getDeploymentState d.name = Except.error (e, some r) → r.statusCode = 400 →
      (resourceContainerHostRead env d).d.id = "" ∧
      (resourceContainerHostRead env d).diags = []) ∧
    (∀ e, env.getDeploymentState d.name = Except.ok "succeeded" →
      env.getDetails d.name = Except.error e →
      (resourceContainerHostRead env d).diags = [fromErr e] ∧
      (resourceContainerHostRead env d).d.id = d.id) := by
  refine ⟨?_, ?_, ?_⟩
  · intro s hs hne
    simp [resourceContainerHostRead, readWithTag, hc, hname, hs, hne]
  · intro e r hs h400
    simp [resourceContainerHostRead, readWithTag, hc, hname, hs, h400]
  · intro e hs hd
    simp [resourceContainerHostRead, readWithTag, hc, hname, hs, hd]

/-- Witness for the amended claim C7, on host "host-a" with an environment
whose details lookup fails. -/
theorem read_taints_only_on_deployment_state_witness :
    (∀ s, envDetailsFail.getDeploymentState hostI1.name = Except.ok s → s ≠ "succeeded" →
      (resourceContainerHostRead envDetailsFail hostI1).d.id = "" ∧
      (resourceContainerHostRead envDetailsFail hostI1).diags = []) ∧
    (∀ e r, envDetailsFail.getDeploymentState hostI1.name = Except.error (e, some r) →
      r.statusCode = 400 →
      (resourceContainerHostRead envDetailsFail hostI1).d.id = "" ∧
      (resourceContainerHostRead envDetailsFail hostI1).diags = []) ∧
    (∀ e, envDetailsFail.getDeploymentState hostI1.name = Except.ok "succeeded" →
      envDetailsFail.getDetails hostI1.name = Except.error e →
      (resourceContainerHostRead envDetailsFail hostI1).diags = [fromErr e] ∧
      (resourceContainerHostRead envDetailsFail hostI1).d.id = hostI1.id) :=
  read_taints_only_on_deployment_state envDetailsFail hostI1 rfl (by decide)

/-- Counterexample to claim C4: with one file block having neither source
nor content and one valid inline block, creation reports the conflict but
issues no call at all — the valid entry does not proceed to be copied
(there is no write event, nor even a creation call). -/
theorem invalid_file_block_aborts_create :
    (resourceContainerHostCreate okEnv hostBadFile).diags =
      [{ severity := Severity.error, summary := "conflict in file block",
         detail := "file /a has neither source or content, set one" }] ∧
    (resourceContainerHostCreate okEnv hostBadFile).events = [] := by
  exact ⟨rfl, rfl⟩

/-- Claim C4 as amended: a file block with neither or both of
source/content set is reported as an error diagnostic and excluded from the
collected copy set while the valid blocks are still collected; however, any
file diagnostic makes creation return those diagnostics immediately, so in
that case no entry is copied and no external call is issued. -/
theorem collectFiles_excludes_invalid_and_aborts_create
    (env : CartelEnv) (d : HostData)
    (hc : env.cartelClient = Except.ok ()) :
    (∀ files : List ProvisionFile,
      (collectFilesToCreate env files).fst = files.filter (fileBlockOk env) ∧
      (collectFilesToCreate env files).snd.length =
        (files.filter (fun f => ¬ fileBlockOk env f)).length) ∧
    ((collectFilesToCreate env d.files).snd ≠ [] →
      (resourceContainerHostCreate env d).diags = (collectFilesToCreate env d.files).snd ∧
      (resourceContainerHostCreate env d).events = []) := by
  constructor
  · intro files
    induction files with
    | nil => exact ⟨rfl, rfl⟩
    | cons f rest ih =>
      obtain ⟨ih1, ih2⟩ := ih
      rcases hp : collectFilesToCreate env rest with ⟨fs, ds⟩
      rw [hp] at ih1 ih2
      by_cases hs : f.source = "" <;> by_cases hcon : f.content = "" <;>
        by_cases ho : env.fsOpenOk f.source <;>
        by_cases hst : env.fsStatOk f.source <;>
        simp [collectFilesToCreate, fileBlockOk, List.filter_cons, hp, hs, hcon, ho,
              hst, ih1, ih2]
  · intro hne
    rcases hp : collectFilesToCreate env d.files with ⟨cf, fd⟩
    rw [hp] at hne
    simp only [ne_eq] at hne
    simp [resourceContainerHostCreate, hc, hp, hne]

/-- Witness for the amended claim C4: on the bad-plus-good file request the
collector keeps exactly the valid block, reports the invalid one, and
creation returns immediately with an empty trace. -/
theorem collectFiles_excludes_invalid_and_aborts_create_witness :
    (∀ files : List ProvisionFile,
      (collectFilesToCreate okEnv files).fst = files.filter (fileBlockOk okEnv) ∧
      (collectFilesToCreate okEnv files).snd.length =
        (files.filter (fun f => ¬ fileBlockOk okEnv f)).length) ∧
    ((collectFilesToCreate okEnv hostBadFile.files).snd ≠ [] →
      (resourceContainerHostCreate okEnv hostBadFile).diags =
        (collectFilesToCreate okEnv hostBadFile.files).snd ∧
      (resourceContainerHostCreate okEnv hostBadFile).events = []) :=
  collectFiles_excludes_invalid_and_aborts_create okEnv hostBadFile rfl

/-- Every event `copyFiles` emits is a remote file write. -/
theorem copyFiles_events_are_writes (env : CartelEnv) :
    ∀ files : List ProvisionFile, ∀ e ∈ (copyFiles env files).fst,
      ∃ dest, e = Event.writeFile dest := by
  intro files
  induction files with
  | nil => intro e he; simp [copyFiles] at he
  | cons f rest ih =>
    intro e he
    rcases hp : copyFiles env rest with ⟨evs, r⟩
    by_cases hs : f.source = ""
    · simp [copyFiles, hs, hp] at he
      rcases he with h | h
      · exact ⟨f.destination, h⟩
      · exact ih e (by rw [hp]; exact h)
    · by_cases ho : env.fsOpenOkAtCopy f.source
      · by_cases hst : env.fsStatOkAtCopy f.source
        · simp [copyFiles, hs, ho, hst, hp] at he
          rcases he with h | h
          · exact ⟨f.destination, h⟩
          · exact ih e (by rw [hp]; exact h)
        · simp [copyFiles, hs, ho, hst] at he
      · simp [copyFiles, hs, ho] at he

/-- The read callback never issues a destroy. -/
theorem read_never_destroys (env : CartelEnv) (d : HostData) (n : String) :
    Event.destroyCall n ∉ (resourceContainerHostRead env d).events := by
  have hw : ∀ d2 tagName ev, Event.destroyCall n ∉ ev →
      Event.destroyCall n ∉ (readWithTag env d2 tagName ev).events := by
    intro d2 tagName ev hev
    unfold readWithTag
    rcases hst : env.getDeploymentState tagName with ⟨e, resp⟩ | state
    · rcases resp with _ | r
      · simp [hev]
      · by_cases h400 : r.statusCode = 400 <;> simp [h400, hev]
    · by_cases hsu : state = "succeeded"
      · rcases hdet : env.getDetails tagName with e | ch
        · simp [hsu, hdet, hev]
        · by_cases hne : ch.instanceID = d2.id <;> simp [hsu, hdet, hne, hev]
      · simp [hsu, hev]
  unfold resourceContainerHostRead
  rcases hc : env.cartelClient with e | u
  · simp
  · by_cases hname : d.name = ""
    · simp only [hname, if_pos rfl]
      rcases hai : env.getAllInstances with e | instances
      · simp
      · exact hw _ _ _ (by simp)
    · simp only [hname, if_neg hname]
      exact hw _ _ _ (by simp)

/-- The command loop never issues a destroy beyond those already traced. -/
theorem runCommands_never_destroys (env : CartelEnv) (d : HostData) (n : String) :
    ∀ cmds diags ev, Event.destroyCall n ∉ ev →
      Event.destroyCall n ∉ (runCommands env d diags ev cmds).events := by
  intro cmds
  induction cmds with
  | nil =>
    intro diags ev hev
    simp only [runCommands, List.mem_append]
    rintro (h | h)
    · exact hev h
    · exact read_never_destroys env d n h
  | cons c rest ih =>
    intro diags ev hev
    have hev2 : Event.destroyCall n ∉ ev ++ [Event.sshRun c 300] := by
      simp [hev]
    rcases hr : env.sshRun c with e | out
    · simp only [runCommands, hr]
      exact hev2
    · simp only [runCommands, hr]
      exact ih diags (ev ++ [Event.sshRun c 300]) hev2

/-- `runCommands` runs exactly the commands `commandRunSpec` describes, in
order, each with the 300 second timeout, stopping at the first failure
(returned as a hard error) and falling through to the read callback when
every command succeeds. -/
theorem runCommands_matches_spec (env : CartelEnv) (d : HostData) :
    ∀ cmds diags ev,
      runCommands env d diags ev cmds =
        { d := match (commandRunSpec env cmds).snd with
               | some _ => d
               | none => (resourceContainerHostRead env d).d
          diags := diags ++ (match (commandRunSpec env cmds).snd with
                   | some m => [fromErr m]
                   | none => (resourceContainerHostRead env d).diags)
          events := ev ++ (commandRunSpec env cmds).fst.map (fun c => Event.sshRun c 300) ++
                    (match (commandRunSpec env cmds).snd with
                     | some _ => []
                     | none => (resourceContainerHostRead env d).events) } := by
  intro cmds
  induction cmds with
  | nil => intro diags ev; simp [runCommands, commandRunSpec]
  | cons c rest ih =>
    intro diags ev
    rcases hr : env.sshRun c with e | out
    · simp [runCommands, commandRunSpec, hr]
    · rcases hp : commandRunSpec env rest with ⟨cs, res⟩
      simp only [runCommands, commandRunSpec, hr, hp]
      rw [ih diags (ev ++ [Event.sshRun c 300]), hp]
      rcases res with _ | m <;> simp

/-- The executed command list is a prefix of the declared command list, and
the whole list when no command fails. -/
theorem commandRunSpec_is_ordered (env : CartelEnv) :
    ∀ cmds : List String,
      (∃ k, (commandRunSpec env cmds).fst = cmds.take k) ∧
      ((commandRunSpec env cmds).snd = none → (commandRunSpec env cmds).fst = cmds) := by
  intro cmds
  induction cmds with
  | nil => exact ⟨⟨0, rfl⟩, fun _ => rfl⟩
  | cons c rest ih =>
    obtain ⟨⟨k, hk⟩, hall⟩ := ih
    rcases hr : env.sshRun c with e | out
    · refine ⟨⟨1, ?_⟩, ?_⟩
      · simp [commandRunSpec, hr]
      · intro h
        simp [commandRunSpec, hr] at h
    · rcases hp : commandRunSpec env rest with ⟨cs, res⟩
      rw [hp] at hk hall
      refine ⟨⟨k + 1, ?_⟩, ?_⟩
      · simp [commandRunSpec, hr, hp, hk]
      · intro h
        simp only [commandRunSpec, hr, hp] at h ⊢
        simp only [h] at hall
        simp [hall trivial]

/-- Once the file blocks are clean and the credentials check passes, the
create callback is decided by the creation call outcome. -/
theorem create_after_validation (env : CartelEnv) (d : HostData)
    (hc : env.cartelClient = Except.ok ())
    (hfiles : (collectFilesToCreate env d.files).snd = [])
    (hval : d.commands = [] ∨ (d.user ≠ "" ∧ d.privateKey ≠ "")) :
    resourceContainerHostCreate env d =
      (match env.create with
       | CreateCallResult.ok ch =>
         continueCreate env d (collectFilesToCreate env d.files).fst d.commands
           ch.instanceID ch.ipAddress [Event.createCall d.name]
       | CreateCallResult.err e none _ =>
         { d := d, diags := [fromErr ("create error (resp=nil): " ++ e)],
           events := [Event.createCall d.name, Event.destroyCall d.name] }
       | CreateCallResult.err e (some resp) none =>
         recoverCreate env d (collectFilesToCreate env d.files).fst d.commands e
           resp.statusCode [Event.createCall d.name]
       | CreateCallResult.err e (some resp) (some ch) =>
         if resp.statusCode ≥ 500 then
           recoverCreate env d (collectFilesToCreate env d.files).fst d.commands e
             resp.statusCode [Event.createCall d.name]
         else
           { d := d,
             diags := [fromErr ("create error (description=[" ++ ch.description ++
                                "], code=[" ++ toString resp.statusCode ++ "]): " ++ e)],
             events := [Event.createCall d.name, Event.destroyCall d.name] }) := by
  rcases hp : collectFilesToCreate env d.files with ⟨cf, fd⟩
  have hfd : fd = [] := by rw [hp] at hfiles; exact hfiles
  subst hfd
  have h1 : ¬(d.commands.length > 0 ∧ d.user = "") := by
    rcases hval with h | ⟨hu, _⟩
    · simp [h]
    · rintro ⟨_, hx⟩; exact hu hx
  have h2 : ¬(d.commands.length > 0 ∧ d.privateKey = "") := by
    rcases hval with h | ⟨_, hk⟩
    · simp [h]
    · rintro ⟨_, hx⟩; exact hk hx
  simp only [resourceContainerHostCreate, hc, hp, collectCommands]
  simp [h1, h2, hp]

/-- Claim C6: on a successful wait, the whole copy pass precedes every
command; the commands actually run form a prefix of the declared list (all
of it when none fails), each under the 300 second per-command timeout; the
first command failure ends the trace and is returned as a hard error (the
read callback is never reached), while a copy failure contributes only the
warning diagnostic and leaves the command pass intact. -/
theorem create_copies_files_before_commands
    (env : CartelEnv) (d : HostData) (ch : CreateHolder)
    (hc : env.cartelClient = Except.ok ())
    (hfiles : (collectFilesToCreate env d.files).snd = [])
    (hval : d.commands = [] ∨ (d.user ≠ "" ∧ d.privateKey ≠ ""))
    (hcre : env.create = CreateCallResult.ok ch)
    (hwait : env.waitForState = Except.ok ()) :
    (∀ e ∈ (copyFiles env (collectFilesToCreate env d.files).fst).fst,
      ∃ dest, e = Event.writeFile dest) ∧
    (∃ k, (commandRunSpec env d.commands).fst = d.commands.take k) ∧
    ((commandRunSpec env d.commands).snd = none →
      (commandRunSpec env d.commands).fst = d.commands) ∧
    resourceContainerHostCreate env d =
      { d := (match (commandRunSpec env d.commands).snd with
              | some _ => { d with id := ch.instanceID }
              | none => (resourceContainerHostRead env { d with id := ch.instanceID }).d)
        diags := (match (copyFiles env (collectFilesToCreate env d.files).fst).snd with
                  | some e => [copyWarn e]
                  | none => []) ++
                 (match (commandRunSpec env d.commands).snd with
                  | some m => [fromErr m]
                  | none =>
                    (resourceContainerHostRead env { d with id := ch.instanceID }).diags)
        events := [Event.createCall d.name, Event.setId ch.instanceID,
                   Event.waitEnter d.name, Event.setConnInfo ch.ipAddress] ++
                  (copyFiles env (collectFilesToCreate env d.files).fst).fst ++
                  (commandRunSpec env d.commands).fst.map (fun c => Event.sshRun c 300) ++
                  (match (commandRunSpec env d.commands).snd with
                   | some _ => []
                   | none =>
                     (resourceContainerHostRead env { d with id := ch.instanceID }).events) } := by
  refine ⟨copyFiles_events_are_writes env _, (commandRunSpec_is_ordered env d.commands).1,
         (commandRunSpec_is_ordered env d.commands).2, ?_⟩
  rw [create_after_validation env d hc hfiles hval, hcre]
  rcases hcp : copyFiles env (collectFilesToCreate env d.files).fst with ⟨cevs, cerr⟩
  simp only [continueCreate, hwait, hcp]
  rw [runCommands_matches_spec]
  rcases hcs : commandRunSpec env d.commands with ⟨cs, res⟩
  rcases res with _ | m <;> rcases cerr with _ | e2 <;> simp [List.append_assoc]

/-- Witness for claim C6: a provisioning request with a source file block
against the environment whose copy-time open fails even though collection
succeeded — the copy pass aborts with only the warning while both commands
still run. -/
theorem create_copies_files_before_commands_witness :
    (∀ e ∈ (copyFiles envCopyFail (collectFilesToCreate envCopyFail hostSrcFile.files).fst).fst,
      ∃ dest, e = Event.writeFile dest) ∧
    (∃ k, (commandRunSpec envCopyFail hostSrcFile.commands).fst = hostSrcFile.commands.take k) ∧
    ((commandRunSpec envCopyFail hostSrcFile.commands).snd = none →
      (commandRunSpec envCopyFail hostSrcFile.commands).fst = hostSrcFile.commands) ∧
    resourceContainerHostCreate envCopyFail hostSrcFile =
      { d := (match (commandRunSpec envCopyFail hostSrcFile.commands).snd with
              | some _ => { hostSrcFile with id := chOk.instanceID }
              | none =>
                (resourceContainerHostRead envCopyFail
                  { hostSrcFile with id := chOk.instanceID }).d)
        diags := (match (copyFiles envCopyFail
                          (collectFilesToCreate envCopyFail hostSrcFile.files).fst).snd with
                  | some e => [copyWarn e]
                  | none => []) ++
                 (match (commandRunSpec envCopyFail hostSrcFile.commands).snd with
                  | some m => [fromErr m]
                  | none =>
                    (resourceContainerHostRead envCopyFail
                      { hostSrcFile with id := chOk.instanceID }).diags)
        events := [Event.createCall hostSrcFile.name, Event.setId chOk.instanceID,
                   Event.waitEnter hostSrcFile.name, Event.setConnInfo chOk.ipAddress] ++
                  (copyFiles envCopyFail
                    (collectFilesToCreate envCopyFail hostSrcFile.files).fst).fst ++
                  (commandRunSpec envCopyFail hostSrcFile.commands).fst.map
                    (fun c => Event.sshRun c 300) ++
                  (match (commandRunSpec envCopyFail hostSrcFile.commands).snd with
                   | some _ => []
                   | none =>
                     (resourceContainerHostRead envCopyFail
                       { hostSrcFile with id := chOk.instanceID }).events) } :=
  create_copies_files_before_commands envCopyFail hostSrcFile chOk rfl rfl
    (Or.inr ⟨by decide, by decide⟩) rfl rfl

/-- Claim C2: every unrecovered creation failure — an error without
response metadata, an ambiguous error whose lookup recovery finds nothing,
an unambiguous rejection, or a wait ending in terminal failure or timeout
(after a direct or a recovered creation) — issues a compensating destroy of
the named host and returns the error; on terminal success no destroy is
ever issued and the trace proceeds into the provisioning stage. -/
theorem create_failures_compensate_with_destroy
    (env : CartelEnv) (d : HostData)
    (hc : env.cartelClient = Except.ok ())
    (hfiles : (collectFilesToCreate env d.files).snd = [])
    (hval : d.commands = [] ∨ (d.user ≠ "" ∧ d.privateKey ≠ "")) :
    (∀ e cho, env.create = CreateCallResult.err e none cho →
      (resourceContainerHostCreate env d).events =
        [Event.createCall d.name, Event.destroyCall d.name] ∧
      (resourceContainerHostCreate env d).diags =
        [fromErr ("create error (resp=nil): " ++ e)]) ∧
    (∀ e r cho, env.create = CreateCallResult.err e (some r) cho →
      (cho = none ∨ 500 ≤ r.statusCode) →
      findInstanceByName env d.name = none →
      (resourceContainerHostCreate env d).events =
        [Event.createCall d.name, Event.getAllInstances, Event.destroyCall d.name] ∧
      (resourceContainerHostCreate env d).diags =
        [fromErr ("create error (status=" ++ toString r.statusCode ++ "): " ++ e)]) ∧
    (∀ e r ch2, env.create = CreateCallResult.err e (some r) (some ch2) →
      r.statusCode < 500 →
      (resourceContainerHostCreate env d).events =
        [Event.createCall d.name, Event.destroyCall d.name] ∧
      (resourceContainerHostCreate env d).diags =
        [fromErr ("create error (description=[" ++ ch2.description ++ "], code=[" ++
                  toString r.statusCode ++ "]): " ++ e)]) ∧
    (∀ ch2 we, env.create = CreateCallResult.ok ch2 →
      env.waitForState = Except.error we →
      (resourceContainerHostCreate env d).events =
        [Event.createCall d.name, Event.setId ch2.instanceID, Event.waitEnter d.name,
         Event.destroyCall d.name] ∧
      (resourceContainerHostCreate env d).diags =
        [fromErr ("error waiting for instance " ++ ch2.instanceID ++
                  " to become ready: " ++ we)]) ∧
    (∀ e r cho det we, env.create = CreateCallResult.err e (some r) cho →
      (cho = none ∨ 500 ≤ r.statusCode) →
      findInstanceByName env d.name = some det →
      env.waitForState = Except.error we →
      (resourceContainerHostCreate env d).events =
        [Event.createCall d.name, Event.getAllInstances, Event.setId det.instanceID,
         Event.waitEnter d.name, Event.destroyCall d.name] ∧
      (resourceContainerHostCreate env d).diags =
        [fromErr ("error waiting for instance " ++ det.instanceID ++
                  " to become ready: " ++ we)]) ∧
    (∀ ch2, env.create = CreateCallResult.ok ch2 →
      env.waitForState = Except.ok () →
      Event.destroyCall d.name ∉ (resourceContainerHostCreate env d).events ∧
      ∃ post, (resourceContainerHostCreate env d).events =
        [Event.createCall d.name, Event.setId ch2.instanceID, Event.waitEnter d.name,
         Event.setConnInfo ch2.ipAddress] ++
        (copyFiles env (collectFilesToCreate env d.files).fst).fst ++ post) := by
  rw [create_after_validation env d hc hfiles hval]
  refine ⟨?_, ?_, ?_, ?_, ?_, ?_⟩
  · intro e cho hcre
    simp [hcre]
  · intro e r cho hcre hamb hfind
    rcases hamb with hnone | h500
    · subst hnone
      simp [hcre, recoverCreate, hfind]
    · rcases cho with _ | ch2 <;>
        simp [hcre, recoverCreate, hfind, h500, Nat.not_lt.mpr h500]
  · intro e r ch2 hcre hlt
    simp [hcre, recoverCreate, Nat.not_le.mpr hlt]
  · intro ch2 we hcre hwait
    simp [hcre, continueCreate, hwait]
  · intro e r cho det we hcre hamb hfind hwait
    rcases hamb with hnone | h500
    · subst hnone
      simp [hcre, recoverCreate, hfind, continueCreate, hwait]
    · rcases cho with _ | ch2 <;>
        simp [hcre, recoverCreate, hfind, h500, Nat.not_lt.mpr h500, continueCreate, hwait]
  · intro ch2 hcre hwait
    rcases hcp : copyFiles env (collectFilesToCreate env d.files).fst with ⟨cevs, cerr⟩
    simp only [hcre, continueCreate, hwait, hcp]
    constructor
    · apply runCommands_never_destroys
      intro hmem
      simp only [List.mem_append] at hmem
      rcases hmem with (h | h) | h
      · simp at h
      · simp at h
      · obtain ⟨dest, hd⟩ := copyFiles_events_are_writes env
          (collectFilesToCreate env d.files).fst (Event.destroyCall d.name)
          (by rw [hcp]; exact h)
        simp at hd
    · rw [runCommands_matches_spec]
      refine ⟨(commandRunSpec env d.commands).fst.map (fun c => Event.sshRun c 300) ++
        (match (commandRunSpec env d.commands).snd with
         | some _ => []
         | none =>
           (resourceContainerHostRead env { d with id := ch2.instanceID }).events), ?_⟩
      simp [List.append_assoc]

/-- Witness for claim C2: the plain request "host-a" against the
all-success environment. -/
theorem create_failures_compensate_with_destroy_witness :
    (∀ e cho, okEnv.create = CreateCallResult.err e none cho →
      (resourceContainerHostCreate okEnv hostA).events =
        [Event.createCall hostA.name, Event.destroyCall hostA.name] ∧
      (resourceContainerHostCreate okEnv hostA).diags =
        [fromErr ("create error (resp=nil): " ++ e)]) ∧
    (∀ e r cho, okEnv.create = CreateCallResult.err e (some r) cho →
      (cho = none ∨ 500 ≤ r.statusCode) →
      findInstanceByName okEnv hostA.name = none →
      (resourceContainerHostCreate okEnv hostA).events =
        [Event.createCall hostA.name, Event.getAllInstances, Event.destroyCall hostA.name] ∧
      (resourceContainerHostCreate okEnv hostA).diags =
        [fromErr ("create error (status=" ++ toString r.statusCode ++ "): " ++ e)]) ∧
    (∀ e r ch2, okEnv.create = CreateCallResult.err e (some r) (some ch2) →
      r.statusCode < 500 →
      (resourceContainerHostCreate okEnv hostA).events =
        [Event.createCall hostA.name, Event.destroyCall hostA.name] ∧
      (resourceContainerHostCreate okEnv hostA).diags =
        [fromErr ("create error (description=[" ++ ch2.description ++ "], code=[" ++
                  toString r.statusCode ++ "]): " ++ e)]) ∧
    (∀ ch2 we, okEnv.create = CreateCallResult.ok ch2 →
      okEnv.waitForState = Except.error we →
      (resourceContainerHostCreate okEnv hostA).events =
        [Event.createCall hostA.name, Event.setId ch2.instanceID, Event.waitEnter hostA.name,
         Event.destroyCall hostA.name] ∧
      (resourceContainerHostCreate okEnv hostA).diags =
        [fromErr ("error waiting for instance " ++ ch2.instanceID ++
                  " to become ready: " ++ we)]) ∧
    (∀ e r cho det we, okEnv.create = CreateCallResult.err e (some r) cho →
      (cho = none ∨ 500 ≤ r.statusCode) →
      findInstanceByName okEnv hostA.name = some det →
      okEnv.waitForState = Except.error we →
      (resourceContainerHostCreate okEnv hostA).events =
        [Event.createCall hostA.name, Event.getAllInstances, Event.setId det.instanceID,
         Event.waitEnter hostA.name, Event.destroyCall hostA.name] ∧
      (resourceContainerHostCreate okEnv hostA).diags =
        [fromErr ("error waiting for instance " ++ det.instanceID ++
                  " to become ready: " ++ we)]) ∧
    (∀ ch2, okEnv.create = CreateCallResult.ok ch2 →
      okEnv.waitForState = Except.ok () →
      Event.destroyCall hostA.name ∉ (resourceContainerHostCreate okEnv hostA).events ∧
      ∃ post, (resourceContainerHostCreate okEnv hostA).events =
        [Event.createCall hostA.name, Event.setId ch2.instanceID, Event.waitEnter hostA.name,
         Event.setConnInfo ch2.ipAddress] ++
        (copyFiles okEnv (collectFilesToCreate okEnv hostA.files).fst).fst ++ post) :=
  create_failures_compensate_with_destroy okEnv hostA rfl rfl (Or.inl rfl)

/-- Claim C3: when the creation call fails ambiguously (status at least 500,
or no channel returned), the create path lists all instances and matches on
the name tag; a match has its instance id and private address adopted (the
id is recorded, and on a successful wait the connection host is the
recovered private address) and creation continues into the wait with no
destroy issued; only when nothing matches is a compensating destroy issued
with the original error reported. -/
theorem create_ambiguous_failure_recovers_by_name
    (env : CartelEnv) (d : HostData) (e : String) (r : Resp) (cho : Option CreateHolder)
    (hc : env.cartelClient = Except.ok ())
    (hfiles : (collectFilesToCreate env d.files).snd = [])
    (hval : d.commands = [] ∨ (d.user ≠ "" ∧ d.privateKey ≠ ""))
    (hcre : env.create = CreateCallResult.err e (some r) cho)
    (hamb : cho = none ∨ 500 ≤ r.statusCode) :
    (∀ det, findInstanceByName env d.name = some det →
      (∃ post, (resourceContainerHostCreate env d).events =
        [Event.createCall d.name, Event.getAllInstances, Event.setId det.instanceID,
         Event.waitEnter d.name] ++ post) ∧
      (env.waitForState = Except.ok () →
        Event.destroyCall d.name ∉ (resourceContainerHostCreate env d).events ∧
        Event.setConnInfo det.privateAddress ∈ (resourceContainerHostCreate env d).events)) ∧
    (findInstanceByName env d.name = none →
      (resourceContainerHostCreate env d).events =
        [Event.createCall d.name, Event.getAllInstances, Event.destroyCall d.name] ∧
      (resourceContainerHostCreate env d).diags =
        [fromErr ("create error (status=" ++ toString r.statusCode ++ "): " ++ e)]) := by
  have hmain : resourceContainerHostCreate env d =
      recoverCreate env d (collectFilesToCreate env d.files).fst d.commands e
        r.statusCode [Event.createCall d.name] := by
    rw [create_after_validation env d hc hfiles hval]
    rcases hamb with hnone | h500
    · subst hnone
      simp [hcre]
    · rcases cho with _ | ch2 <;> simp [hcre, h500, Nat.not_lt.mpr h500]
  rw [hmain]
  constructor
  · intro det hfind
    simp only [recoverCreate, hfind]
    constructor
    · rcases hw : env.waitForState with we | u
      · refine ⟨[Event.destroyCall d.name], ?_⟩
        simp [continueCreate, hw]
      · rcases hcp : copyFiles env (collectFilesToCreate env d.files).fst with ⟨cevs, cerr⟩
        simp only [continueCreate, hw, hcp]
        rw [runCommands_matches_spec]
        refine ⟨Event.setConnInfo det.privateAddress :: cevs ++
          (commandRunSpec env d.commands).fst.map (fun c => Event.sshRun c 300) ++
          (match (commandRunSpec env d.commands).snd with
           | some _ => []
           | none =>
             (resourceContainerHostRead env { d with id := det.instanceID }).events), ?_⟩
        simp [List.append_assoc]
    · intro hwait
      rcases hcp : copyFiles env (collectFilesToCreate env d.files).fst with ⟨cevs, cerr⟩
      simp only [continueCreate, hwait, hcp]
      rw [runCommands_matches_spec]
      constructor
      · have hnd : Event.destroyCall d.name ∉
            (([Event.createCall d.name, Event.getAllInstances] ++
              [Event.setId det.instanceID, Event.waitEnter d.name]) ++
             [Event.setConnInfo det.privateAddress]) ++ cevs := by
          intro hmem
          simp only [List.mem_append] at hmem
          rcases hmem with (h | h) | h
          · simp at h
          · simp at h
          · obtain ⟨dest, hd⟩ := copyFiles_events_are_writes env
              (collectFilesToCreate env d.files).fst (Event.destroyCall d.name)
              (by rw [hcp]; exact h)
            simp at hd
        rw [← runCommands_matches_spec]
        exact runCommands_never_destroys env _ _ _ _ _ hnd
      · simp [List.mem_append]
  · intro hfind
    simp [recoverCreate, hfind]

/-- Witness for claim C3: a 504 on creation of "host-a" in an environment
whose instance listing holds the live instance "i-9" named "host-a". -/
theorem create_ambiguous_failure_recovers_by_name_witness :
    (∀ det, findInstanceByName envRecover hostA.name = some det →
      (∃ post, (resourceContainerHostCreate envRecover hostA).events =
        [Event.createCall hostA.name, Event.getAllInstances, Event.setId det.instanceID,
         Event.waitEnter hostA.name] ++ post) ∧
      (envRecover.waitForState = Except.ok () →
        Event.destroyCall hostA.name ∉ (resourceContainerHostCreate envRecover hostA).events ∧
        Event.setConnInfo det.privateAddress ∈
          (resourceContainerHostCreate envRecover hostA).events)) ∧
    (findInstanceByName envRecover hostA.name = none →
      (resourceContainerHostCreate envRecover hostA).events =
        [Event.createCall hostA.name, Event.getAllInstances, Event.destroyCall hostA.name] ∧
      (resourceContainerHostCreate envRecover hostA).diags =
        [fromErr ("create error (status=" ++ toString (504 : Nat) ++ "): " ++
                  "gateway timeout")]) :=
  create_ambiguous_failure_recovers_by_name envRecover hostA "gateway timeout"
    { statusCode := 504 } none rfl rfl (Or.inl rfl) rfl (Or.inl rfl)

end HSDP
